import Mathlib

/-!
Verification of the conversation-normalization and single-turn completion
logic of the recipe-chatbot backend (`backend/utils.py`).

The backend's entire core is the function `get_agent_response`, which

1. normalizes the incoming conversation history so that it starts with a
   system message (prepending the persona prompt when the history is empty
   or its first message is not a system message),
2. submits the normalized history together with a model identifier to the
   external completion provider (`litellm.completion`),
3. extracts the reply text from the first choice of the provider's
   response object and strips surrounding whitespace,
4. appends the stripped reply as a new assistant message, and returns the
   extended history.

The persona prompt (`SYSTEM_PROMPT` in the source) is an opaque
configuration constant; we quantify over its text.  The external provider
and the process environment are external collaborators, so they enter the
embedding as function parameters.  Python's surrounding-whitespace strip
is modelled by the executable function `strip` below.
-/

namespace RecipeBot

/-- A chat message: a record with a `role` field (`"system"`, `"user"` or
`"assistant"`) and a `content` field, mirroring the `Dict[str, str]`
items of `backend/utils.py`. -/
structure Message where
  role : String
  content : String
deriving DecidableEq, Repr

/-- One element of the `choices` array of a provider response: it carries
a `message` record (the source reads `choice["message"]["content"]`). -/
structure CompletionChoice where
  message : Message
deriving DecidableEq, Repr

/-- The provider's response object; the source reads
`completion["choices"][0]`. -/
structure CompletionResponse where
  choices : List CompletionChoice
deriving DecidableEq, Repr

/-- Faults observable from `get_agent_response`: either the provider call
itself raised (the payload is the provider's fault, passed through
unchanged), or the provider's response had no first choice, so the
extraction `completion["choices"][0]` raised an index fault. -/
inductive AgentError (ε : Type) where
  | providerFault (e : ε)
  | indexError
deriving DecidableEq, Repr

/-- The normalization step of `get_agent_response`
(`backend/utils.py`, lines 125-129): if the history is empty or its first
message's role is not `"system"`, prepend a fresh system message carrying
the persona prompt; otherwise keep the history unchanged.  The pattern
match mirrors Python's short-circuit
`if not messages or messages[0]["role"] != "system"`. -/
def normalize (systemPrompt : String) : List Message → List Message
  | [] => [⟨"system", systemPrompt⟩]
  | m :: rest =>
      if m.role ≠ "system" then ⟨"system", systemPrompt⟩ :: m :: rest
      else m :: rest

/-- The guard of the normalization branch with the element access made
explicit (`not messages or messages[0]["role"] != "system"`): `none`
models an out-of-range access `messages[0]` on an empty list; Python's
`or` short-circuits, so the access only happens on a non-empty list. -/
def normalizeGuardEval (messages : List Message) : Option Bool :=
  if messages.isEmpty then some true
  else (messages[0]?).map (fun m => m.role != "system")

/-- The whitespace class of Python's `str.strip()` restricted to the
Latin-1 range: tab, line feed, vertical tab, form feed, carriage return,
the information separators, space, next line and no-break space.  (The
remaining Unicode space-separator code points are not modelled; no claim
depends on them.) -/
def isPythonSpace (c : Char) : Bool :=
  c = '\x09' || c = '\x0a' || c = '\x0b' || c = '\x0c' || c = '\x0d' ||
  c = '\x1c' || c = '\x1d' || c = '\x1e' || c = '\x1f' || c = ' ' ||
  c = '\x85' || c = '\xa0'

/-- Python's `str.strip()` with no argument: remove leading and trailing
whitespace characters. -/
def strip (s : String) : String :=
  ⟨((s.data.dropWhile isPythonSpace).reverse.dropWhile isPythonSpace).reverse⟩

/-- `get_agent_response` of `backend/utils.py` (lines 108-143).
`systemPrompt` stands for the module constant `SYSTEM_PROMPT` (opaque
configuration), `model` for the module constant `MODEL_NAME`, and
`completion` for `litellm.completion`, which either returns a response
object or fails with a fault of type `ε`.  On success the function
returns `current_messages` extended with the assistant reply; a provider
fault or a missing first choice propagates as an error. -/
def get_agent_response {ε : Type} (systemPrompt model : String)
    (completion : String → List Message → Except ε CompletionResponse)
    (messages : List Message) : Except (AgentError ε) (List Message) :=
  let current_messages := normalize systemPrompt messages
  match completion model current_messages with
  | Except.error e => Except.error (AgentError.providerFault e)
  | Except.ok comp =>
      match comp.choices[0]? with
      | none => Except.error AgentError.indexError
      | some choice =>
          let assistant_reply_content := strip choice.message.content
          Except.ok
            (current_messages ++ [⟨"assistant", assistant_reply_content⟩])

/-- `MODEL_NAME` of `backend/utils.py` (line 103):
`os.environ.get("MODEL_NAME", "gpt-4o-mini")`.  The process environment
is modelled as a partial map from variable names to values. -/
def MODEL_NAME (env : String → Option String) : String :=
  (env "MODEL_NAME").getD "gpt-4o-mini"

/-- A provider that always succeeds and answers with reply text `R`
(response object with a single choice whose message content is `R`). -/
def constCompletion (R : String) :
    String → List Message → Except String CompletionResponse :=
  fun _ _ => Except.ok ⟨[⟨⟨"assistant", R⟩⟩]⟩

/-- Length of the maximal prefix of messages whose role is `"system"`. -/
def leadingSystemCount : List Message → Nat
  | [] => 0
  | m :: rest =>
      if m.role = "system" then leadingSystemCount rest + 1 else 0

example : normalize "P" [] = [⟨"system", "P"⟩] := by decide
example : normalize "P" [⟨"user", "hi"⟩] =
    [⟨"system", "P"⟩, ⟨"user", "hi"⟩] := by decide
example : normalize "P" [⟨"system", "Custom"⟩, ⟨"user", "hi"⟩] =
    [⟨"system", "Custom"⟩, ⟨"user", "hi"⟩] := by decide
example : get_agent_response "P" "m" (constCompletion "  Hello chef!  \n") [] =
    Except.ok [⟨"system", "P"⟩, ⟨"assistant", "Hello chef!"⟩] := rfl

example : strip "  Hello chef!  \n" = "Hello chef!" := rfl

/-! ### Helper lemmas (shared) -/

/-- Normalization of a history whose first message is a system message is
the identity. -/
theorem normalize_of_head_system (p : String) (h : List Message)
    (hd : h.head?.map Message.role = some "system") : normalize p h = h := by
  cases h with
  | nil => simp at hd
  | cons m rest =>
      simp only [List.head?_cons, Option.map_some', Option.some.injEq] at hd
      simp [normalize, hd]

/-- Normalization of an empty history, or of one whose first message is
not a system message, prepends the persona system message. -/
theorem normalize_of_missing (p : String) (h : List Message)
    (hmiss : h = [] ∨ h.head?.map Message.role ≠ some "system") :
    normalize p h = ⟨"system", p⟩ :: h := by
  cases h with
  | nil => rfl
  | cons m rest =>
      rcases hmiss with hnil | hrole
      · exact absurd hnil (List.cons_ne_nil m rest)
      · simp only [List.head?_cons, Option.map_some', ne_eq,
          Option.some.injEq] at hrole
        simp [normalize, hrole]

/-- The first message of a normalized history always has role
`"system"`. -/
theorem normalize_head_role (p : String) (h : List Message) :
    (normalize p h).head?.map Message.role = some "system" := by
  cases h with
  | nil => rfl
  | cons m rest =>
      by_cases hr : m.role = "system"
      · simp [normalize, hr]
      · simp [normalize, hr]

/-- A normalized history is never empty. -/
theorem normalize_ne_nil (p : String) (h : List Message) :
    normalize p h ≠ [] := by
  cases h with
  | nil => simp [normalize]
  | cons m rest =>
      by_cases hr : m.role = "system"
      · simp [normalize, hr]
      · simp [normalize, hr]

/-- On a successful constant provider, `get_agent_response` returns the
normalized history with the stripped reply appended. -/
theorem get_agent_response_constCompletion (p model R : String)
    (h : List Message) :
    get_agent_response p model (constCompletion R) h =
      Except.ok (normalize p h ++ [Message.mk "assistant" (strip R)]) := rfl

/-! ### Claim theorems -/

/-- C1: for every history that is empty or whose first element's role is
not `"system"`, the sequence submitted to the provider is the persona
system message followed by the history in order; its length is
`h.length + 1` and its first element is the persona system message. -/
theorem C1_injection_when_missing (p : String) (h : List Message)
    (hmiss : h = [] ∨ h.head?.map Message.role ≠ some "system") :
    normalize p h = ⟨"system", p⟩ :: h ∧
    (normalize p h).length = h.length + 1 ∧
    (normalize p h).head? = some ⟨"system", p⟩ := by
  have hn := normalize_of_missing p h hmiss
  exact ⟨hn, by rw [hn]; rfl, by rw [hn]; rfl⟩

/-- Witness for C1 at the concrete history `[user "hi"]`. -/
theorem C1_witness :
    normalize "P" [⟨"user", "hi"⟩] = [⟨"system", "P"⟩, ⟨"user", "hi"⟩] ∧
    (normalize "P" [⟨"user", "hi"⟩]).length =
      [(⟨"user", "hi"⟩ : Message)].length + 1 ∧
    (normalize "P" [⟨"user", "hi"⟩]).head? = some ⟨"system", "P"⟩ :=
  C1_injection_when_missing "P" [⟨"user", "hi"⟩] (Or.inr (by decide))

/-- C2: for every non-empty history whose first element's role is
`"system"`, normalization is the identity (nothing is inserted and the
length is unchanged); moreover normalization is idempotent on every
history. -/
theorem C2_idempotent_normalization (p : String) (h : List Message) :
    (h.head?.map Message.role = some "system" → normalize p h = h) ∧
    normalize p (normalize p h) = normalize p h :=
  ⟨normalize_of_head_system p h,
   normalize_of_head_system p (normalize p h) (normalize_head_role p h)⟩

/-- Witness for C2 at the concrete histories `[system "Custom", user "hi"]`
and `[user "hi"]`. -/
theorem C2_witness :
    normalize "P" [⟨"system", "Custom"⟩, ⟨"user", "hi"⟩] =
      [⟨"system", "Custom"⟩, ⟨"user", "hi"⟩] ∧
    normalize "P" (normalize "P" [⟨"user", "hi"⟩]) =
      normalize "P" [⟨"user", "hi"⟩] :=
  ⟨(C2_idempotent_normalization "P" [⟨"system", "Custom"⟩, ⟨"user", "hi"⟩]).1
      (by decide),
   (C2_idempotent_normalization "P" [⟨"user", "hi"⟩]).2⟩

/-- C9: the emptiness test short-circuits before the first element is
read: evaluating the normalization guard with the element access made
explicit never hits the out-of-range branch (`none`), and the guard's
value drives `normalize`. -/
theorem C9_guard_in_bounds (msgs : List Message) :
    ∃ b : Bool, normalizeGuardEval msgs = some b ∧
      ∀ p, normalize p msgs = if b then ⟨"system", p⟩ :: msgs else msgs := by
  cases msgs with
  | nil => exact ⟨true, rfl, fun p => rfl⟩
  | cons m rest =>
      refine ⟨m.role != "system", by simp [normalizeGuardEval], fun p => ?_⟩
      by_cases hr : m.role = "system"
      · simp [normalize, hr]
      · simp [normalize, hr]

/-- C3: whenever the provider succeeds with reply text `R`, the returned
conversation is exactly the normalized sequence with one assistant
message carrying the stripped reply appended: its length is the
normalized length plus one, its last element is that assistant message,
and every earlier position agrees with the normalized sequence. -/
theorem C3_append_only {ε : Type} (p model R : String)
    (completion : String → List Message → Except ε CompletionResponse)
    (h : List Message) (resp : CompletionResponse) (choice : CompletionChoice)
    (hc : completion model (normalize p h) = Except.ok resp)
    (hch : resp.choices[0]? = some choice)
    (hR : choice.message.content = R) :
    get_agent_response p model completion h =
      Except.ok (normalize p h ++ [Message.mk "assistant" (strip R)]) ∧
    (normalize p h ++ [Message.mk "assistant" (strip R)]).length =
      (normalize p h).length + 1 ∧
    (normalize p h ++ [Message.mk "assistant" (strip R)]).getLast? =
      some ⟨"assistant", strip R⟩ ∧
    ∀ i : Nat, i < (normalize p h).length →
      (normalize p h ++ [Message.mk "assistant" (strip R)])[i]? = (normalize p h)[i]? := by
  refine ⟨?_, by simp, List.getLast?_concat _, fun i hi => ?_⟩
  · simp [get_agent_response, hc, hch, hR]
  · rw [List.getElem?_append_left hi]

/-- Witness for C3 at the empty history and the constant provider that
replies `" hi "`. -/
theorem C3_witness :
    get_agent_response "P" "m" (constCompletion " hi ") [] =
      Except.ok (normalize "P" [] ++ [Message.mk "assistant" (strip " hi ")]) ∧
    (normalize "P" [] ++ [Message.mk "assistant" (strip " hi ")]).length =
      (normalize "P" []).length + 1 ∧
    (normalize "P" [] ++ [Message.mk "assistant" (strip " hi ")]).getLast? =
      some ⟨"assistant", strip " hi "⟩ ∧
    ∀ i : Nat, i < (normalize "P" []).length →
      (normalize "P" [] ++ [Message.mk "assistant" (strip " hi ")])[i]? =
        (normalize "P" [])[i]? :=
  C3_append_only "P" "m" " hi " (constCompletion " hi ") []
    ⟨[⟨⟨"assistant", " hi "⟩⟩]⟩ ⟨⟨"assistant", " hi "⟩⟩ rfl rfl rfl

/-- C4: the appended assistant message's content is the provider reply
with surrounding whitespace stripped; in particular the reply
`"  Hello chef!  \n"` yields content `"Hello chef!"` exactly. -/
theorem C4_whitespace_normalization (p model : String) (h : List Message)
    (R : String) :
    get_agent_response p model (constCompletion R) h =
      Except.ok (normalize p h ++ [Message.mk "assistant" (strip R)]) ∧
    strip "  Hello chef!  \n" = "Hello chef!" ∧
    get_agent_response p model (constCompletion "  Hello chef!  \n") h =
      Except.ok (normalize p h ++ [⟨"assistant", "Hello chef!"⟩]) :=
  ⟨get_agent_response_constCompletion p model R h, rfl,
   get_agent_response_constCompletion p model "  Hello chef!  \n" h⟩

/-- C5: if the provider call fails with fault `e`, `get_agent_response`
returns no conversation: it propagates the fault, with the payload `e`
unchanged, and no `ok` value is produced. -/
theorem C5_failure_propagation {ε : Type} (p model : String)
    (completion : String → List Message → Except ε CompletionResponse)
    (h : List Message) (e : ε)
    (hfail : completion model (normalize p h) = Except.error e) :
    get_agent_response p model completion h =
      Except.error (AgentError.providerFault e) ∧
    ∀ L : List Message, get_agent_response p model completion h ≠
      Except.ok L := by
  have hmain : get_agent_response p model completion h =
      Except.error (AgentError.providerFault e) := by
    simp [get_agent_response, hfail]
  exact ⟨hmain, fun L hL => by rw [hmain] at hL; exact Except.noConfusion hL⟩

/-- Witness for C5: a provider that always fails with `"boom"`. -/
theorem C5_witness :
    get_agent_response "P" "m"
        (fun _ _ => (Except.error "boom" : Except String CompletionResponse))
        [] =
      Except.error (AgentError.providerFault "boom") ∧
    ∀ L : List Message,
      get_agent_response "P" "m"
          (fun _ _ => (Except.error "boom" : Except String CompletionResponse))
          [] ≠ Except.ok L :=
  C5_failure_propagation "P" "m"
    (fun _ _ => (Except.error "boom" : Except String CompletionResponse))
    [] "boom" rfl

/-- C6 counterexample: a history whose first two messages both have role
`"system"` passes through normalization unchanged, so the submitted
sequence has two leading system messages, not exactly one. -/
theorem C6_counterexample :
    leadingSystemCount (normalize "P" [⟨"system", "a"⟩, ⟨"system", "b"⟩]) ≠
      1 := by decide

/-- C6 (amended): the submitted sequence is non-empty and its first
element's role is `"system"`; a caller-supplied system message already in
first position is kept with nothing inserted; when the input has at most
one leading system message the submitted sequence has exactly one; and
the returned conversation's first element also has role `"system"`.
(When the input itself starts with several system messages they are all
kept, so "exactly one leading system message" can fail.) -/
theorem C6_leading_system (p : String) (h : List Message) :
    normalize p h ≠ [] ∧
    (normalize p h).head?.map Message.role = some "system" ∧
    (h.head?.map Message.role = some "system" → normalize p h = h) ∧
    (leadingSystemCount h ≤ 1 → leadingSystemCount (normalize p h) = 1) ∧
    ∀ model R : String, ∀ L : List Message,
      get_agent_response p model (constCompletion R) h = Except.ok L →
      L.head?.map Message.role = some "system" := by
  refine ⟨normalize_ne_nil p h, normalize_head_role p h,
    normalize_of_head_system p h, ?_, ?_⟩
  · intro hcount
    cases h with
    | nil => rfl
    | cons m rest =>
        by_cases hr : m.role = "system"
        · cases rest with
          | nil => simp [normalize, leadingSystemCount, hr]
          | cons m2 rest2 =>
              by_cases hr2 : m2.role = "system"
              · exfalso
                simp [leadingSystemCount, hr, hr2] at hcount
              · simp [normalize, leadingSystemCount, hr, hr2]
        · simp [normalize, leadingSystemCount, hr]
  · intro model R L hL
    rw [get_agent_response_constCompletion p model R h] at hL
    have hLeq : L = normalize p h ++ [Message.mk "assistant" (strip R)] :=
      (Except.ok.injEq _ _).mp hL.symm
    rw [hLeq, List.head?_append_of_ne_nil _ (normalize_ne_nil p h)]
    exact normalize_head_role p h

/-- Witness for C6 at concrete inputs, discharging each hypothesis. -/
theorem C6_witness :
    leadingSystemCount (normalize "P" [⟨"user", "x"⟩]) = 1 ∧
    normalize "P" [⟨"system", "c"⟩] = [⟨"system", "c"⟩] ∧
    ([⟨"system", "P"⟩, ⟨"assistant", "hi"⟩] :
        List Message).head?.map Message.role = some "system" :=
  ⟨(C6_leading_system "P" [⟨"user", "x"⟩]).2.2.2.1 (by decide),
   (C6_leading_system "P" [⟨"system", "c"⟩]).2.2.1 (by decide),
   (C6_leading_system "P" []).2.2.2.2 "m" "hi"
     [⟨"system", "P"⟩, ⟨"assistant", "hi"⟩] rfl⟩

/-- C7: the function is pure and append-only with respect to its input:
the successful result is a newly constructed list equal to zero or one
prepended system message, followed by the original input unchanged,
followed by exactly one appended assistant message. -/
theorem C7_no_mutation (p model R : String) (h : List Message) :
    ∃ pre : List Message,
      (pre = [] ∨ pre = [⟨"system", p⟩]) ∧
      get_agent_response p model (constCompletion R) h =
        Except.ok (pre ++ h ++ [Message.mk "assistant" (strip R)]) := by
  by_cases hd : h.head?.map Message.role = some "system"
  · exact ⟨[], Or.inl rfl, by
      rw [get_agent_response_constCompletion p model R h,
        normalize_of_head_system p h hd]; rfl⟩
  · refine ⟨[⟨"system", p⟩], Or.inr rfl, ?_⟩
    rw [get_agent_response_constCompletion p model R h,
      normalize_of_missing p h ?_]
    · rfl
    · cases h with
      | nil => exact Or.inl rfl
      | cons m rest => exact Or.inr hd

/-- C8: the model identifier is the process environment's `MODEL_NAME`
value when set, and the literal `"gpt-4o-mini"` when absent; every
provider invocation receives exactly this identifier. -/
theorem C8_model_name (env : String → Option String) :
    (∀ v : String, env "MODEL_NAME" = some v → MODEL_NAME env = v) ∧
    (env "MODEL_NAME" = none → MODEL_NAME env = "gpt-4o-mini") ∧
    ∀ p : String, ∀ h : List Message,
      get_agent_response p (MODEL_NAME env)
          (fun m _ => (Except.error m : Except String CompletionResponse)) h =
        Except.error (AgentError.providerFault (MODEL_NAME env)) := by
  refine ⟨fun v hv => ?_, fun hnone => ?_, fun p h => rfl⟩
  · unfold MODEL_NAME; rw [hv]; rfl
  · unfold MODEL_NAME; rw [hnone]; rfl

/-- Witness for C8: an environment with `MODEL_NAME` set to `"gpt-4"`,
and the empty environment. -/
theorem C8_witness :
    MODEL_NAME (fun k => if k = "MODEL_NAME" then some "gpt-4" else none) =
      "gpt-4" ∧
    MODEL_NAME (fun _ => none) = "gpt-4o-mini" ∧
    get_agent_response "P" (MODEL_NAME (fun _ => none))
        (fun m _ => (Except.error m : Except String CompletionResponse)) [] =
      Except.error
        (AgentError.providerFault (MODEL_NAME (fun _ => none))) :=
  ⟨(C8_model_name
      (fun k => if k = "MODEL_NAME" then some "gpt-4" else none)).1
      "gpt-4" (by decide),
   (C8_model_name (fun _ => none)).2.1 rfl,
   (C8_model_name (fun _ => none)).2.2 "P" []⟩

/-- C10: the function is deterministic in its inputs and the provider's
reply: two invocations with element-wise equal histories, the same
persona prompt, the same model and the same reply text return equal
conversations. -/
theorem C10_deterministic (p model R : String) (h1 h2 : List Message)
    (helem : ∀ i : Nat, h1[i]? = h2[i]?) :
    get_agent_response p model (constCompletion R) h1 =
      get_agent_response p model (constCompletion R) h2 := by
  have heq : h1 = h2 := List.ext_getElem? helem
  rw [heq]

/-- Witness for C10 at two (equal) concrete histories. -/
theorem C10_witness :
    get_agent_response "P" "m" (constCompletion "hi") [⟨"user", "pasta"⟩] =
      get_agent_response "P" "m" (constCompletion "hi") [⟨"user", "pasta"⟩] :=
  C10_deterministic "P" "m" "hi" [⟨"user", "pasta"⟩] [⟨"user", "pasta"⟩]
    (fun _ => rfl)

end RecipeBot
